import Mathlib

/-!
Shallow embedding of the session execution layer of ClaudeWhisperer
(src/src-tauri/src/vosk.rs, src/src-tauri/src/terminal.rs,
src/src-tauri/src/sidecar.rs, src/src-tauri/src/commands/vosk_cmds.rs),
with the OS/socket/process primitives modelled as explicit oracles and
the concurrent registries as association lists.
-/

set_option autoImplicit false

namespace ClaudeWhisperer

/-- First-match lookup in an association list, mirroring `HashMap::get`
(under the managers' invariant each key occurs at most once). -/
def lookup {α : Type} (id : String) : List (String × α) → Option α
  | [] => none
  | (k, v) :: rest => if k = id then some v else lookup id rest

/-- Remove every entry with the given key, mirroring `HashMap::remove`
(under the at-most-one-entry invariant the two agree). -/
def removeKey {α : Type} (id : String) : List (String × α) → List (String × α)
  | [] => []
  | (k, v) :: rest => if k = id then removeKey id rest else (k, v) :: removeKey id rest

/-- Insert-or-replace, mirroring `HashMap::insert`. -/
def insertKey {α : Type} (id : String) (v : α) (l : List (String × α)) :
    List (String × α) :=
  (id, v) :: removeKey id l

theorem lookup_insertKey {α : Type} (id : String) (v : α) (l : List (String × α)) :
    lookup id (insertKey id v l) = some v := by
  simp [insertKey, lookup]

theorem lookup_removeKey {α : Type} (id : String) (l : List (String × α)) :
    lookup id (removeKey id l) = none := by
  induction l with
  | nil => rfl
  | cons p rest ih =>
    obtain ⟨k, v⟩ := p
    by_cases h : k = id <;> simp [removeKey, lookup, h, ih]

/-- A JSON value: numbers keep their written form (an integer literal or a
literal with a fractional part, the latter held exactly as a rational), as
serde_json distinguishes the two when deserializing `u64` versus `f64`. -/
inductive JVal where
  | jnull
  | jbool (b : Bool)
  | jint (n : Int)
  | jfloat (q : Rat)
  | jstr (s : String)
  | jarr (xs : List JVal)
  | jobj (fields : List (String × JVal))

/-- Deserialize a JSON value as a `String` field. -/
def asStr : JVal → Option String
  | .jstr s => some s
  | _ => none

/-- Deserialize a JSON value as a `u64` field: an integer literal in range. -/
def asU64 : JVal → Option Nat
  | .jint n => if 0 ≤ n ∧ n < 2 ^ 64 then some n.toNat else none
  | _ => none

/-- Deserialize a JSON value as an `f64` field: any number (the model keeps
the exact rational; IEEE rounding is not modelled). -/
def asF64 : JVal → Option Rat
  | .jint n => some (n : Rat)
  | .jfloat q => some q
  | _ => none

namespace Vosk

/-- A frame written to a session's websocket by `VoskSession`
(src/src-tauri/src/vosk.rs): the JSON config text frame
`\x7b"config":\x7b"sample_rate":r\x7d\x7d`, a binary PCM frame, or the JSON
end-of-stream text frame `\x7b"eof":1\x7d`. -/
inductive Frame where
  | config (sample_rate : Nat)
  | audio (bytes : List Nat)
  | eof
  deriving DecidableEq

/-- Is this frame the configuration frame? -/
def Frame.isConfig : Frame → Bool
  | .config _ => true
  | _ => false

/-- Is this frame a binary audio frame? -/
def Frame.isAudio : Frame → Bool
  | .audio _ => true
  | _ => false

/-- `i16::to_le_bytes`: the two little-endian bytes of a 16-bit two's
complement sample. -/
def i16ToLeBytes (s : Int) : List Nat :=
  let u : Nat := ((s % 65536 + 65536) % 65536).toNat
  [u % 256, u / 256]

/-- The byte conversion in `VoskSession::send_audio`:
`samples.iter().flat_map(|s| s.to_le_bytes()).collect()`. -/
def pcmBytes (samples : List Int) : List Nat :=
  (samples.map i16ToLeBytes).flatten

/-- Outcome of one websocket `send` attempt (external socket behaviour). -/
inductive SendOutcome where
  | ok
  | err (msg : String)
  deriving DecidableEq

/-- The transmit side of one session's socket: a script of outcomes for the
coming `send` calls, and the frames successfully transmitted so far, in
order. -/
structure Sock where
  script : List SendOutcome
  sent : List Frame
  deriving DecidableEq

/-- One `socket.send(frame)` call: consumes the next scripted outcome; an
exhausted script means the transport keeps accepting frames. -/
def Sock.send (k : Sock) (f : Frame) : Except String Unit × Sock :=
  match k.script with
  | [] => (.ok (), { k with sent := k.sent ++ [f] })
  | .ok :: rest => (.ok (), { script := rest, sent := k.sent ++ [f] })
  | .err e :: rest => (.error e, { k with script := rest })

/-- The mutable state of `VoskSession` apart from the socket itself: the
`configured` idempotence flag and the negotiated sample rate. -/
structure VoskSession where
  configured : Bool
  sample_rate : Nat
  deriving DecidableEq

/-- `VoskSession::new`: a fresh, not yet configured session. -/
def VoskSession.new (sample_rate : Nat) : VoskSession :=
  { configured := false, sample_rate := sample_rate }

/-- `VoskSession::ensure_configured`: send the config frame once; the flag is
set only after a successful send. -/
def ensure_configured (s : VoskSession) (k : Sock) :
    Except String Unit × VoskSession × Sock :=
  if s.configured then (.ok (), s, k)
  else
    match k.send (.config s.sample_rate) with
    | (.ok _, k') => (.ok (), { s with configured := true }, k')
    | (.error e, k') => (.error ("Failed to send config: " ++ e), s, k')

/-- `VoskSession::send_audio`: configure lazily, then send one binary frame of
little-endian PCM. -/
def send_audio (s : VoskSession) (k : Sock) (samples : List Int) :
    Except String Unit × VoskSession × Sock :=
  match ensure_configured s k with
  | (.error e, s', k') => (.error e, s', k')
  | (.ok _, s', k') =>
    match k'.send (.audio (pcmBytes samples)) with
    | (.ok _, k'') => (.ok (), s', k'')
    | (.error e, k'') => (.error ("Failed to send audio: " ++ e), s', k'')

/-- A sequence of `send_audio` calls on one session, each with its sample
buffer; results are returned to the caller and do not stop the sequence. -/
def runSendAudio (s : VoskSession) (k : Sock) : List (List Int) → VoskSession × Sock
  | [] => (s, k)
  | samples :: rest =>
    let r := send_audio s k samples
    runSendAudio r.2.1 r.2.2 rest

/-- `VoskResponse` (src/src-tauri/src/vosk.rs): an untagged enum, a partial
or a final transcript. -/
inductive VoskResponse where
  | Partial (s : String)
  | Final (s : String)
  deriving DecidableEq

/-- serde's untagged deserialization of `VoskResponse`: the `Partial` variant
(field `partial`) is tried first, then `Final` (field `text`). -/
def parseVoskResponse : JVal → Option VoskResponse
  | .jobj fields =>
    match lookup "partial" fields >>= asStr with
    | some s => some (.Partial s)
    | none =>
      match lookup "text" fields >>= asStr with
      | some s => some (.Final s)
      | none => none
  | _ => none

/-- What one `socket.next()` call yields, as matched by `VoskSession::recv`:
a text frame (its payload as JSON when it parses, `none` when it is not
valid JSON), a close frame, any other frame kind, or a websocket error.
Stream end (`None`) is an exhausted script. -/
inductive NextItem where
  | text (j : Option JVal)
  | closeFrame
  | otherFrame
  | sockErr (e : String)

/-- The receive loop of `VoskSession::finalize`: repeat `recv` until a final
result (return its text), stream end / close / non-text frame (return `""`),
or a receive error. -/
def finalizeLoop : List NextItem → Except String String
  | [] => .ok ""
  | .text (some jv) :: rest =>
    match parseVoskResponse jv with
    | some (.Final t) => .ok t
    | some (.Partial _) => finalizeLoop rest
    | none => .error "Failed to parse Vosk response"
  | .text none :: _ => .error "Failed to parse Vosk response"
  | .closeFrame :: _ => .ok ""
  | .otherFrame :: _ => .ok ""
  | .sockErr e :: _ => .error ("WebSocket error: " ++ e)

/-- `VoskSession::finalize`: send the `eof` frame, then wait for the final
result. -/
def finalize (k : Sock) (stream : List NextItem) : Except String String × Sock :=
  match k.send .eof with
  | (.error e, k') => (.error ("Failed to send EOF: " ++ e), k')
  | (.ok _, k') => (finalizeLoop stream, k')

/-- One registry entry of `VoskManager`: the session state together with the
two sides of its socket (transmit script and pending inbound items). -/
structure VoskEntry where
  session : VoskSession
  sock : Sock
  stream : List NextItem

/-- `VoskManager`'s session registry. -/
def VoskManager := List (String × VoskEntry)

/-- The `send_vosk_audio` command (src/src-tauri/src/commands/vosk_cmds.rs):
look the session up, error synchronously when absent, else `send_audio`. -/
def send_vosk_audio (mgr : VoskManager) (id : String) (samples : List Int) :
    Except String Unit × VoskManager :=
  match lookup id mgr with
  | none => (.error ("Vosk session " ++ id ++ " not found"), mgr)
  | some entry =>
    let r := send_audio entry.session entry.sock samples
    (r.1, insertKey id { entry with session := r.2.1, sock := r.2.2 } mgr)

/-- `VoskManager::close_session`: remove the entry (never restored), then
finalize it; unknown ids give a synchronous error. -/
def close_session (mgr : VoskManager) (id : String) :
    VoskManager × Except String String :=
  match lookup id mgr with
  | some entry => (removeKey id mgr, (finalize entry.sock entry.stream).1)
  | none => (mgr, .error ("Session " ++ id ++ " not found"))

/-- What one iteration of the polling task spawned by `start_vosk_session`
(src/src-tauri/src/commands/vosk_cmds.rs) observes: the registry lookup
failed, the advisory lock was taken, or `try_recv` returned. -/
inductive PollStep where
  | gone
  | locked
  | recvOk (r : Option VoskResponse)
  | recvErr (e : String)

/-- An event emitted by the polling task (each is emitted on a channel
suffixed with the session id): `vosk-partial-`, `vosk-final-`, `vosk-error-`. -/
inductive PumpEvent where
  | voskPartial (id s : String)
  | voskFinal (id s : String)
  | voskError (id e : String)
  deriving DecidableEq

/-- How the polling task's loop ended. -/
inductive PumpExit where
  | sessionGone
  | errorLimit
  | running
  deriving DecidableEq

/-- `MAX_CONSECUTIVE_ERRORS` in `start_vosk_session`. -/
def MAX_CONSECUTIVE_ERRORS : Nat := 5

/-- The polling task's loop, iterated over a script of observations: returns
the events emitted from this point on and how the loop ended (an exhausted
script leaves the loop still running). The task never mutates the registry
and never closes the socket; its only exits are a failed registry lookup and
the consecutive-error limit. -/
def pumpLoop (id : String) (consecutive_errors : Nat) :
    List PollStep → List PumpEvent × PumpExit
  | [] => ([], .running)
  | .gone :: _ => ([], .sessionGone)
  | .locked :: rest => pumpLoop id consecutive_errors rest
  | .recvOk (some (.Partial s)) :: rest =>
    let r := pumpLoop id 0 rest
    (.voskPartial id s :: r.1, r.2)
  | .recvOk (some (.Final s)) :: rest =>
    let r := pumpLoop id 0 rest
    (.voskFinal id s :: r.1, r.2)
  | .recvOk none :: rest => pumpLoop id 0 rest
  | .recvErr e :: rest =>
    if consecutive_errors + 1 ≥ MAX_CONSECUTIVE_ERRORS then
      ([.voskError id e], .errorLimit)
    else
      let r := pumpLoop id (consecutive_errors + 1) rest
      (.voskError id e :: r.1, r.2)

end Vosk

namespace Terminal

/-- `SessionStatus` (src/src-tauri/src/terminal.rs). -/
inductive SessionStatus where
  | Starting
  | Running
  | Completed
  | Failed
  deriving DecidableEq

/-- `TerminalSession` (src/src-tauri/src/terminal.rs). -/
structure TerminalSession where
  id : String
  repo_path : String
  prompt : String
  status : SessionStatus
  created_at : Nat
  deriving DecidableEq

/-- `PtySession`: the pty pair and writer are owned opaquely; the model keeps
the cooperative shutdown flag. -/
structure PtySession where
  shutdown_flag : Bool
  deriving DecidableEq

/-- `TerminalManager`'s two registries. -/
structure TerminalManager where
  sessions : List (String × TerminalSession)
  pty_sessions : List (String × PtySession)

/-- `HashMap::get_mut` followed by a status write: update the status of the
entry with the given key, if any. -/
def updateStatus (id : String) (st : SessionStatus) :
    List (String × TerminalSession) → List (String × TerminalSession)
  | [] => []
  | (k, s) :: rest =>
    if k = id then (k, { s with status := st }) :: rest
    else (k, s) :: updateStatus id st rest

/-- Set the shutdown flag of the entry with the given key, if any
(`close_session`'s first step). -/
def setShutdownFlag (id : String) :
    List (String × PtySession) → List (String × PtySession)
  | [] => []
  | (k, s) :: rest =>
    if k = id then (k, { s with shutdown_flag := true }) :: rest
    else (k, s) :: setShutdownFlag id rest

/-- Outcomes of the OS calls `create_session` makes, in order: `openpty`,
`spawn_command`, `try_clone_reader`, `take_writer`. -/
structure CreateEnv where
  openpty : Except String Unit
  spawn_command : Except String Unit
  try_clone_reader : Except String Unit
  take_writer : Except String Unit

/-- `TerminalManager::create_session`, with the generated UUID passed as `id`
and the current time as `created_at`. Returns the manager state, the result,
and whether the per-session reader pump thread was spawned. The session
record is inserted with status `Starting` before any OS call; on any failure
the call returns without removing it. -/
def create_session (m : TerminalManager) (env : CreateEnv)
    (id repo_path prompt : String) (created_at : Nat) :
    TerminalManager × Except String String × Bool :=
  let session : TerminalSession :=
    { id := id, repo_path := repo_path, prompt := prompt,
      status := .Starting, created_at := created_at }
  let m1 : TerminalManager :=
    { m with sessions := insertKey id session m.sessions }
  match env.openpty with
  | .error e => (m1, .error ("Failed to open PTY: " ++ e), false)
  | .ok _ =>
    match env.spawn_command with
    | .error e => (m1, .error ("Failed to spawn claude: " ++ e), false)
    | .ok _ =>
      match env.try_clone_reader with
      | .error e => (m1, .error ("Failed to clone reader: " ++ e), false)
      | .ok _ =>
        match env.take_writer with
        | .error e => (m1, .error ("Failed to take writer: " ++ e), false)
        | .ok _ =>
          let m2 : TerminalManager :=
            { m1 with
              pty_sessions := insertKey id { shutdown_flag := false } m1.pty_sessions }
          let m3 : TerminalManager :=
            { m2 with sessions := updateStatus id .Running m2.sessions }
          (m3, .ok id, true)

/-- `TerminalManager::write_to_session`, the writer's `write_all` and `flush`
as oracles. -/
def write_to_session (m : TerminalManager) (writeRes flushRes : Except String Unit)
    (id : String) (_data : String) : Except String Unit :=
  match lookup id m.pty_sessions with
  | some _ =>
    match writeRes with
    | .error e => .error ("Failed to write: " ++ e)
    | .ok _ =>
      match flushRes with
      | .error e => .error ("Failed to flush: " ++ e)
      | .ok _ => .ok ()
  | none => .error "Session not found"

/-- `MIN_PTY_ROWS` (src/src-tauri/src/terminal.rs). -/
def MIN_PTY_ROWS : Nat := 1

/-- `MIN_PTY_COLS`. -/
def MIN_PTY_COLS : Nat := 1

/-- `MAX_PTY_ROWS`. -/
def MAX_PTY_ROWS : Nat := 500

/-- `MAX_PTY_COLS`. -/
def MAX_PTY_COLS : Nat := 500

/-- `TerminalManager::resize_session`, the OS `resize` call as an oracle; the
returned Bool reports whether the OS resize call was invoked. Dimensions are
`u16` in the source; values fit in `Nat` unchanged. -/
def resize_session (m : TerminalManager) (osResize : Except String Unit)
    (id : String) (rows cols : Nat) : Except String Unit × Bool :=
  if rows < MIN_PTY_ROWS || cols < MIN_PTY_COLS then
    (.error ("Invalid dimensions: rows=" ++ toString rows ++ ", cols=" ++
      toString cols ++ " (minimum: " ++ toString MIN_PTY_ROWS ++ "x" ++
      toString MIN_PTY_COLS ++ ")"), false)
  else if rows > MAX_PTY_ROWS || cols > MAX_PTY_COLS then
    (.error ("Dimensions too large: rows=" ++ toString rows ++ ", cols=" ++
      toString cols ++ " (maximum: " ++ toString MAX_PTY_ROWS ++ "x" ++
      toString MAX_PTY_COLS ++ ")"), false)
  else
    match lookup id m.pty_sessions with
    | some _ =>
      match osResize with
      | .ok _ => (.ok (), true)
      | .error e => (.error ("Failed to resize: " ++ e), true)
    | none => (.error "Session not found", false)

/-- `TerminalManager::close_session`: set the shutdown flag when the entry
exists, drop the pty session and the session record, and return `Ok` —
unconditionally, also for ids absent from both registries. -/
def close_session (m : TerminalManager) (id : String) :
    TerminalManager × Except String Unit :=
  let ptys := setShutdownFlag id m.pty_sessions
  ({ sessions := removeKey id m.sessions,
     pty_sessions := removeKey id ptys }, .ok ())

/-- What one iteration of the per-session reader thread observes: the
shutdown flag set at the top of the loop, or the result of `reader.read`
(EOF, a decoded chunk, or a read error — the latter two also arise after the
handle was dropped by `close_session`). -/
inductive ReadObs where
  | flagged
  | eofRead
  | data (s : String)
  | readErr (e : String)

/-- An event emitted by the reader thread, each on a channel suffixed with
the session id: `terminal-output-` and `terminal-closed-`. -/
inductive TermEvent where
  | output (id s : String)
  | closed (id : String)
  deriving DecidableEq

/-- The reader pump of `create_session`, from a given point in its
observation script onward: data chunks are emitted as output events; the
flag, EOF and read errors all break the loop, after which the epilogue emits
exactly one `terminal-closed` event (an exhausted script is a thread still
blocked in `read`). -/
def readerLoop (id : String) : List ReadObs → List TermEvent
  | [] => []
  | .flagged :: _ => [.closed id]
  | .eofRead :: _ => [.closed id]
  | .readErr _ :: _ => [.closed id]
  | .data s :: rest => .output id s :: readerLoop id rest

end Terminal

namespace Sidecar

/-- `InboundMessage` (src/src-tauri/src/sidecar.rs), the closed set of events
the subprocess multiplexer accepts; `f64` fields as exact rationals,
`serde_json::Value` payloads as `JVal`. -/
inductive InboundMessage where
  | Ready
  | Created (id : String)
  | Text (id content : String)
  | ToolStart (id tool : String) (input : JVal)
  | ToolResult (id tool output : String)
  | Done (id : String)
  | Usage (id : String)
      (input_tokens output_tokens cache_read_tokens cache_creation_tokens : Nat)
      (total_cost_usd : Rat)
      (duration_ms duration_api_ms num_turns context_window : Nat)
  | ProgressiveUsage (id : String)
      (input_tokens output_tokens cache_read_tokens cache_creation_tokens : Nat)
  | ModelUpdated (id model : String)
  | ThinkingUpdated (id : String) (max_thinking_tokens : Nat)
  | Closed (id : String)
  | Error (id message : String)
  | Debug (id message : String)
  | SubagentStart (id agent_id agent_type : String)
  | SubagentStop (id agent_id transcript_path : String)

/-- The wire tag of each variant (`serde(tag = "type",
rename_all = "snake_case")`). -/
def tagOf : InboundMessage → String
  | .Ready => "ready"
  | .Created _ => "created"
  | .Text .. => "text"
  | .ToolStart .. => "tool_start"
  | .ToolResult .. => "tool_result"
  | .Done _ => "done"
  | .Usage .. => "usage"
  | .ProgressiveUsage .. => "progressive_usage"
  | .ModelUpdated .. => "model_updated"
  | .ThinkingUpdated .. => "thinking_updated"
  | .Closed _ => "closed"
  | .Error .. => "error"
  | .Debug .. => "debug"
  | .SubagentStart .. => "subagent_start"
  | .SubagentStop .. => "subagent_stop"

/-- The session id an event carries; only `Ready` has none. -/
def sessionId : InboundMessage → Option String
  | .Ready => none
  | .Created id => some id
  | .Text id _ => some id
  | .ToolStart id _ _ => some id
  | .ToolResult id _ _ => some id
  | .Done id => some id
  | .Usage id _ _ _ _ _ _ _ _ _ => some id
  | .ProgressiveUsage id _ _ _ _ => some id
  | .ModelUpdated id _ => some id
  | .ThinkingUpdated id _ => some id
  | .Closed id => some id
  | .Error id _ => some id
  | .Debug id _ => some id
  | .SubagentStart id _ _ => some id
  | .SubagentStop id _ _ => some id

/-- The full set of wire tags the parser accepts, in declaration order. -/
def inboundTags : List String :=
  ["ready", "created", "text", "tool_start", "tool_result", "done", "usage",
   "progressive_usage", "model_updated", "thinking_updated", "closed",
   "error", "debug", "subagent_start", "subagent_stop"]

/-- The fourteen event kinds the specification enumerates, in wire spelling
(the spec writes them hyphenated: `text-chunk` is the `text` tag, and so on);
the spec's list has no kind corresponding to the `done` tag. -/
def claimedInboundTags : List String :=
  ["ready", "created", "text", "tool_start", "tool_result", "usage",
   "progressive_usage", "model_updated", "thinking_updated", "closed",
   "error", "debug", "subagent_start", "subagent_stop"]

/-- Deserialization of one tagged object's payload, given its field list:
the `type` field selects the variant, the remaining fields fill its payload
(unknown fields ignored, missing ones rejected). -/
def parseTagged (fields : List (String × JVal)) : Option InboundMessage :=
  match lookup "type" fields >>= asStr with
  | none => none
  | some tag =>
    match tag with
      | "ready" => some .Ready
      | "created" => do
        let id ← lookup "id" fields >>= asStr
        pure (.Created id)
      | "text" => do
        let id ← lookup "id" fields >>= asStr
        let content ← lookup "content" fields >>= asStr
        pure (.Text id content)
      | "tool_start" => do
        let id ← lookup "id" fields >>= asStr
        let tool ← lookup "tool" fields >>= asStr
        let input ← lookup "input" fields
        pure (.ToolStart id tool input)
      | "tool_result" => do
        let id ← lookup "id" fields >>= asStr
        let tool ← lookup "tool" fields >>= asStr
        let output ← lookup "output" fields >>= asStr
        pure (.ToolResult id tool output)
      | "done" => do
        let id ← lookup "id" fields >>= asStr
        pure (.Done id)
      | "usage" => do
        let id ← lookup "id" fields >>= asStr
        let it ← lookup "inputTokens" fields >>= asU64
        let ot ← lookup "outputTokens" fields >>= asU64
        let crt ← lookup "cacheReadTokens" fields >>= asU64
        let cct ← lookup "cacheCreationTokens" fields >>= asU64
        let cost ← lookup "totalCostUsd" fields >>= asF64
        let dm ← lookup "durationMs" fields >>= asU64
        let dam ← lookup "durationApiMs" fields >>= asU64
        let nt ← lookup "numTurns" fields >>= asU64
        let cw ← lookup "contextWindow" fields >>= asU64
        pure (.Usage id it ot crt cct cost dm dam nt cw)
      | "progressive_usage" => do
        let id ← lookup "id" fields >>= asStr
        let it ← lookup "inputTokens" fields >>= asU64
        let ot ← lookup "outputTokens" fields >>= asU64
        let crt ← lookup "cacheReadTokens" fields >>= asU64
        let cct ← lookup "cacheCreationTokens" fields >>= asU64
        pure (.ProgressiveUsage id it ot crt cct)
      | "model_updated" => do
        let id ← lookup "id" fields >>= asStr
        let model ← lookup "model" fields >>= asStr
        pure (.ModelUpdated id model)
      | "thinking_updated" => do
        let id ← lookup "id" fields >>= asStr
        let t ← lookup "maxThinkingTokens" fields >>= asU64
        pure (.ThinkingUpdated id t)
      | "closed" => do
        let id ← lookup "id" fields >>= asStr
        pure (.Closed id)
      | "error" => do
        let id ← lookup "id" fields >>= asStr
        let message ← lookup "message" fields >>= asStr
        pure (.Error id message)
      | "debug" => do
        let id ← lookup "id" fields >>= asStr
        let message ← lookup "message" fields >>= asStr
        pure (.Debug id message)
      | "subagent_start" => do
        let id ← lookup "id" fields >>= asStr
        let aid ← lookup "agentId" fields >>= asStr
        let at_ ← lookup "agentType" fields >>= asStr
        pure (.SubagentStart id aid at_)
      | "subagent_stop" => do
        let id ← lookup "id" fields >>= asStr
        let aid ← lookup "agentId" fields >>= asStr
        let tp ← lookup "transcriptPath" fields >>= asStr
        pure (.SubagentStop id aid tp)
      | _ => none

/-- serde's internally-tagged deserialization of `InboundMessage` from a JSON
value: only objects are accepted, via `parseTagged`. -/
def parseInbound : JVal → Option InboundMessage
  | .jobj fields => parseTagged fields
  | _ => none

/-- The transport state of `SidecarManager`: whether a child `process` and a
shared `stdin` writer are held, and the `started` flag. -/
structure SidecarState where
  hasProcess : Bool
  hasStdin : Bool
  started : Bool
  deriving DecidableEq

/-- `SidecarManager::new`: nothing held, not started. -/
def SidecarState.new : SidecarState :=
  { hasProcess := false, hasStdin := false, started := false }

/-- The environment `start` consults, as oracles: the exe path, the working
directory and the resource directory (each can fail), which candidate files
exist, the OS spawn outcome, and whether the child's stdout/stdin pipes were
obtained. -/
structure StartEnv where
  current_exe : Except String String
  current_dir : Except String String
  resource_dir : Except String String
  path_exists : String → Bool
  spawn : Except String Unit
  child_stdout : Bool
  child_stdin : Bool

/-- `Path::join` on the model's `/`-joined path strings. -/
def pathJoin (a b : String) : String := a ++ "/" ++ b

/-- Split a character list at every occurrence of `c` (the separator model of
`String.splitOn`). -/
def splitOnChar (c : Char) : List Char → List (List Char)
  | [] => [[]]
  | x :: xs =>
    let r := splitOnChar c xs
    if x = c then [] :: r
    else
      match r with
      | [] => [[x]]
      | h :: t => (x :: h) :: t

/-- Join character-list components with `/` separators. -/
def joinSlash : List (List Char) → List Char
  | [] => []
  | [x] => x
  | x :: xs => x ++ '/' :: joinSlash xs

/-- `Path::parent` on the model's `/`-joined path strings: drop the final
component. -/
def parentDir (p : String) : Option String :=
  let parts := splitOnChar '/' p.data
  if parts.length ≤ 1 then none
  else some (String.mk (joinSlash parts.dropLast))

/-- The five sidecar path candidates of `SidecarManager::start`, in priority
order. -/
def candidates (resource_dir cwd exe_dir : String) : List String :=
  [pathJoin resource_dir "dist/index.js",
   pathJoin resource_dir "sidecar/dist/index.js",
   pathJoin cwd "sidecar/dist/index.js",
   pathJoin cwd "src-tauri/sidecar/dist/index.js",
   pathJoin exe_dir "sidecar/dist/index.js"]

/-- The error `start` returns when no candidate exists: it lists every path
candidate tried, each on its own line in `Debug` (quoted) form. -/
def notFoundMsg (paths : List String) : String :=
  "Sidecar not found. Tried:\n" ++
    String.intercalate "\n" (paths.map fun p => "  - \"" ++ p ++ "\"")

/-- `SidecarManager::start`: idempotent when `started`; otherwise resolve the
directories, find the first existing candidate, spawn, and take the child's
pipes. Returns the state, the result, and whether an OS spawn was attempted. -/
def start (st : SidecarState) (env : StartEnv) :
    SidecarState × Except String Unit × Bool :=
  if st.started then (st, .ok (), false)
  else
    match env.current_exe with
    | .error e => (st, .error ("Failed to get exe path: " ++ e), false)
    | .ok exePath =>
      match parentDir exePath with
      | none => (st, .error "Failed to get exe directory", false)
      | some exe_dir =>
        match env.current_dir with
        | .error e => (st, .error ("Failed to get cwd: " ++ e), false)
        | .ok cwd =>
          match env.resource_dir with
          | .error e => (st, .error ("Failed to get resource dir: " ++ e), false)
          | .ok rd =>
            let paths := candidates rd cwd exe_dir
            match paths.find? env.path_exists with
            | none => (st, .error (notFoundMsg paths), false)
            | some _ =>
              match env.spawn with
              | .error e => (st, .error ("Failed to spawn sidecar: " ++ e), true)
              | .ok _ =>
                if !env.child_stdout then
                  (st, .error "Failed to get stdout", true)
                else if !env.child_stdin then
                  (st, .error "Failed to get stdin", true)
                else
                  ({ hasProcess := true, hasStdin := true, started := true },
                   .ok (), true)

end Sidecar

/-- The inbound item carrying a partial result frame. -/
def Vosk.partialItem (s : String) : Vosk.NextItem :=
  .text (some (.jobj [("partial", .jstr s)]))

/-- The inbound item carrying a final result frame. -/
def Vosk.finalItem (t : String) : Vosk.NextItem :=
  .text (some (.jobj [("text", .jstr t)]))

/-- The configuration invariant of a socket session: the `configured` flag is
set exactly when the config frame (with the session's sample rate) has been
transmitted, it is the first transmitted frame, and everything after it is
audio. -/
def ConfInv (r : Nat) (s : Vosk.VoskSession) (k : Vosk.Sock) : Prop :=
  s.sample_rate = r ∧
  ((s.configured = false ∧ k.sent = []) ∨
   (s.configured = true ∧ ∃ l, k.sent = Vosk.Frame.config r :: l ∧
      ∀ f ∈ l, f.isAudio = true))

/-- A `done` protocol line, as the sidecar emits after a query completes. -/
def Sidecar.doneLine : JVal :=
  .jobj [("type", .jstr "done"), ("id", .jstr "s1")]

/-! Theorems. -/

theorem pumpLoop_recvErr_cons (id : String) (errs : Nat) (e : String)
    (rest : List Vosk.PollStep) :
    Vosk.pumpLoop id errs (.recvErr e :: rest) =
      if errs + 1 ≥ Vosk.MAX_CONSECUTIVE_ERRORS then
        ([.voskError id e], .errorLimit)
      else
        (.voskError id e :: (Vosk.pumpLoop id (errs + 1) rest).1,
         (Vosk.pumpLoop id (errs + 1) rest).2) := rfl

theorem pumpLoop_errRun (id e : String) (rest : List Vosk.PollStep) :
    ∀ n errs : Nat, errs + n = Vosk.MAX_CONSECUTIVE_ERRORS → 0 < n →
      Vosk.pumpLoop id errs (List.replicate n (.recvErr e) ++ rest) =
        (List.replicate n (.voskError id e), .errorLimit)
  | 0, _, _, hn => absurd hn (by simp)
  | 1, errs, h, _ => by
    simp only [List.replicate, List.cons_append, List.nil_append,
      pumpLoop_recvErr_cons]
    rw [if_pos (by omega)]
  | n + 2, errs, h, _ => by
    have hrec := pumpLoop_errRun id e rest (n + 1) (errs + 1) (by omega)
      (by omega)
    rw [show List.replicate (n + 2) (Vosk.PollStep.recvErr e) ++ rest =
        .recvErr e :: (List.replicate (n + 1) (.recvErr e) ++ rest) from rfl,
      pumpLoop_recvErr_cons,
      if_neg (by simp only [Vosk.MAX_CONSECUTIVE_ERRORS] at h ⊢; omega),
      hrec]
    rfl

/-- C1: as stated the claim is false on the code: after the threshold of 5
consecutive receive errors the polling task of `start_vosk_session` has
emitted exactly the five per-failure error events and nothing else — there
is no final termination signal, and the loop exits without closing or
removing the session (the pump has no registry mutation at all). -/
theorem C1_counterexample :
    Vosk.pumpLoop "s" 0 (List.replicate 5 (.recvErr "boom")) =
      (List.replicate 5 (.voskError "s" "boom"), .errorLimit) ∧
    ∀ ev ∈ (Vosk.pumpLoop "s" 0 (List.replicate 5 (.recvErr "boom"))).1,
      ev = .voskError "s" "boom" := by
  refine ⟨?_, ?_⟩
  · have := pumpLoop_errRun "s" "boom" [] 5 0 rfl (by omega)
    simpa using this
  · intro ev hev
    have h5 := pumpLoop_errRun "s" "boom" [] 5 0 rfl (by omega)
    rw [List.append_nil] at h5
    rw [h5] at hev
    exact List.eq_of_mem_replicate hev

/-- C1 (amended): after `MAX_CONSECUTIVE_ERRORS` (5) consecutive receive
errors the pump stops, having emitted exactly one error event per failed
receive attempt and nothing further (no termination event, no registry
removal — the session entry stays in the registry); a successful partial or
final result (or an empty poll) anywhere resets the consecutive-error
counter to zero, and each below-threshold error emits exactly one error
event. -/
theorem C1_amended_pump :
    (∀ id e rest, Vosk.pumpLoop id 0
        (List.replicate Vosk.MAX_CONSECUTIVE_ERRORS (.recvErr e) ++ rest) =
      (List.replicate Vosk.MAX_CONSECUTIVE_ERRORS (.voskError id e), .errorLimit)) ∧
    (∀ id errs s rest, Vosk.pumpLoop id errs (.recvOk (some (.Partial s)) :: rest) =
      (.voskPartial id s :: (Vosk.pumpLoop id 0 rest).1, (Vosk.pumpLoop id 0 rest).2)) ∧
    (∀ id errs s rest, Vosk.pumpLoop id errs (.recvOk (some (.Final s)) :: rest) =
      (.voskFinal id s :: (Vosk.pumpLoop id 0 rest).1, (Vosk.pumpLoop id 0 rest).2)) ∧
    (∀ id errs rest, Vosk.pumpLoop id errs (.recvOk none :: rest) =
      Vosk.pumpLoop id 0 rest) ∧
    (∀ id errs e rest, errs + 1 < Vosk.MAX_CONSECUTIVE_ERRORS →
      Vosk.pumpLoop id errs (.recvErr e :: rest) =
        (.voskError id e :: (Vosk.pumpLoop id (errs + 1) rest).1,
         (Vosk.pumpLoop id (errs + 1) rest).2)) ∧
    (∀ id errs rest, Vosk.pumpLoop id errs (.gone :: rest) = ([], .sessionGone)) := by
  refine ⟨?_, ?_, ?_, ?_, ?_, ?_⟩
  · intro id e rest
    exact pumpLoop_errRun id e rest Vosk.MAX_CONSECUTIVE_ERRORS 0 rfl (by decide)
  · intro id errs s rest; rfl
  · intro id errs s rest; rfl
  · intro id errs rest; rfl
  · intro id errs e rest h
    simp only [Vosk.pumpLoop]
    rw [if_neg (by omega)]
  · intro id errs rest; rfl

/-- C1 witness: the amended theorem applied at a concrete run — three errors,
then a partial result that resets the counter. -/
theorem C1_amended_pump_witness :
    Vosk.pumpLoop "s" 2 (.recvErr "x" :: [.recvOk (some (.Partial "p"))]) =
      (.voskError "s" "x" ::
        (Vosk.pumpLoop "s" 3 [.recvOk (some (.Partial "p"))]).1,
       (Vosk.pumpLoop "s" 3 [.recvOk (some (.Partial "p"))]).2) ∧
    Vosk.pumpLoop "s" 3 [.recvOk (some (.Partial "p"))] =
      (.voskPartial "s" "p" :: (Vosk.pumpLoop "s" 0 []).1,
       (Vosk.pumpLoop "s" 0 []).2) :=
  ⟨C1_amended_pump.2.2.2.2.1 "s" 2 "x" [.recvOk (some (.Partial "p"))] (by decide),
   C1_amended_pump.2.1 "s" 3 "p" []⟩

/-- C2: as stated the claim is false on the code: after `close_session` has
set the shutdown flag and removed the handle, the reader pump observes the
flag, breaks, and its epilogue still emits one `terminal-closed` event for
that session ID — so an event for the ID is emitted after the removal. -/
theorem C2_counterexample :
    Terminal.readerLoop "s" [.flagged] = [.closed "s"] ∧
    Terminal.readerLoop "s" [.flagged] ≠ ([] : List Terminal.TermEvent) := by
  refine ⟨rfl, ?_⟩
  intro h
  simp [Terminal.readerLoop] at h

/-- C2 (amended): once the handle has been removed by `close_session`, the
pump observes termination on its next iteration — the shutdown flag set
before the removal, or EOF / a read error from the dropped pty — and from
that point emits no further output events; it emits exactly one final
`terminal-closed` notification for the session ID and ignores the rest of
its input. -/
theorem C2_amended_reader :
    ∀ (id e : String) (rest : List Terminal.ReadObs),
      Terminal.readerLoop id (.flagged :: rest) = [.closed id] ∧
      Terminal.readerLoop id (.eofRead :: rest) = [.closed id] ∧
      Terminal.readerLoop id (.readErr e :: rest) = [.closed id] := by
  intro id e rest
  exact ⟨rfl, rfl, rfl⟩

/-- C4: as stated the claim is false on the code: a resize request within
bounds on a live session does not always succeed — `resize_session` returns
the OS `resize` call's error when that call fails (here rows=24, cols=80,
both within [1,500], on a registered session). -/
theorem C4_counterexample :
    Terminal.MIN_PTY_ROWS ≤ 24 ∧ 24 ≤ Terminal.MAX_PTY_ROWS ∧
    Terminal.MIN_PTY_COLS ≤ 80 ∧ 80 ≤ Terminal.MAX_PTY_COLS ∧
    lookup "s" [("s", ({ shutdown_flag := false } : Terminal.PtySession))] =
      some { shutdown_flag := false } ∧
    (Terminal.resize_session
        { sessions := [], pty_sessions := [("s", { shutdown_flag := false })] }
        (.error "EINVAL") "s" 24 80).1 =
      .error "Failed to resize: EINVAL" := by
  refine ⟨by decide, by decide, by decide, by decide, rfl, rfl⟩

/-- C4 (amended): requests with rows or cols outside [1,500] are rejected
with an error and without invoking the OS resize call; requests with both
dimensions within [1,500] on a live session invoke the OS resize call and
return its result, so they succeed whenever the OS call succeeds. -/
theorem C4_amended_resize :
    ∀ (m : Terminal.TerminalManager) (os : Except String Unit) (id : String)
      (rows cols : Nat),
      ((rows < Terminal.MIN_PTY_ROWS ∨ cols < Terminal.MIN_PTY_COLS ∨
        rows > Terminal.MAX_PTY_ROWS ∨ cols > Terminal.MAX_PTY_COLS) →
        (∃ e, (Terminal.resize_session m os id rows cols) = (.error e, false))) ∧
      (Terminal.MIN_PTY_ROWS ≤ rows → rows ≤ Terminal.MAX_PTY_ROWS →
        Terminal.MIN_PTY_COLS ≤ cols → cols ≤ Terminal.MAX_PTY_COLS →
        ∀ p, lookup id m.pty_sessions = some p →
          (Terminal.resize_session m os id rows cols).2 = true ∧
          (os = .ok () →
            Terminal.resize_session m os id rows cols = (.ok (), true))) := by
  intro m os id rows cols
  constructor
  · intro h
    simp only [Terminal.resize_session]
    by_cases hlo : (rows < Terminal.MIN_PTY_ROWS || cols < Terminal.MIN_PTY_COLS) = true
    · rw [if_pos hlo]
      exact ⟨_, rfl⟩
    · rw [if_neg hlo]
      have hhi : (rows > Terminal.MAX_PTY_ROWS || cols > Terminal.MAX_PTY_COLS) = true := by
        simp only [Bool.or_eq_true, decide_eq_true_eq, not_or] at hlo ⊢
        simp only [Terminal.MIN_PTY_ROWS, Terminal.MIN_PTY_COLS,
          Terminal.MAX_PTY_ROWS, Terminal.MAX_PTY_COLS] at h hlo ⊢
        omega
      rw [if_pos hhi]
      exact ⟨_, rfl⟩
  · intro h1 h2 h3 h4 p hp
    have hlo : ¬(rows < Terminal.MIN_PTY_ROWS || cols < Terminal.MIN_PTY_COLS) = true := by
      simp only [Bool.or_eq_true, decide_eq_true_eq, not_or]
      omega
    have hhi : ¬(rows > Terminal.MAX_PTY_ROWS || cols > Terminal.MAX_PTY_COLS) = true := by
      simp only [Bool.or_eq_true, decide_eq_true_eq, not_or]
      omega
    constructor
    · simp only [Terminal.resize_session]
      rw [if_neg hlo, if_neg hhi, hp]
      cases os <;> rfl
    · intro hos
      simp only [Terminal.resize_session]
      rw [if_neg hlo, if_neg hhi, hp, hos]

/-- C4 witness: the amended theorem applied at rows=600 (rejected without an
OS call) and at rows=24, cols=80 on a live session with a succeeding OS
resize. -/
theorem C4_amended_resize_witness :
    (∃ e, Terminal.resize_session
        { sessions := [], pty_sessions := [("s", { shutdown_flag := false })] }
        (.ok ()) "s" 600 80 = (.error e, false)) ∧
    Terminal.resize_session
        { sessions := [], pty_sessions := [("s", { shutdown_flag := false })] }
        (.ok ()) "s" 24 80 = (.ok (), true) :=
  ⟨(C4_amended_resize
      { sessions := [], pty_sessions := [("s", { shutdown_flag := false })] }
      (.ok ()) "s" 600 80).1 (by right; right; left; decide),
   ((C4_amended_resize
      { sessions := [], pty_sessions := [("s", { shutdown_flag := false })] }
      (.ok ()) "s" 24 80).2 (by decide) (by decide) (by decide) (by decide)
      { shutdown_flag := false } rfl).2 rfl⟩

/-- C5: as stated the claim is false on the code:
`TerminalManager::close_session` returns `Ok(())` even when the given ID is
not present in either registry — it never reports resource-not-found. -/
theorem C5_counterexample :
    (Terminal.close_session { sessions := [], pty_sessions := [] } "ghost").2 =
      .ok () := rfl

/-- C5 (amended): `write_to_session` and `resize_session` for ptys (the
latter for in-bounds dimensions; out-of-bounds is rejected earlier), and
`send_audio` and `close_session` for sockets, return an error synchronously
when the given ID is not in the backend's registry; pty `close_session`
instead returns `Ok` unconditionally (an idempotent no-op on unknown IDs). -/
theorem C5_amended_unknown_id :
    ∀ (tm : Terminal.TerminalManager) (vm : Vosk.VoskManager) (id data : String)
      (samples : List Int) (wr fl os : Except String Unit) (rows cols : Nat),
      lookup id tm.pty_sessions = none →
      lookup id vm = none →
      Terminal.MIN_PTY_ROWS ≤ rows → rows ≤ Terminal.MAX_PTY_ROWS →
      Terminal.MIN_PTY_COLS ≤ cols → cols ≤ Terminal.MAX_PTY_COLS →
      Terminal.write_to_session tm wr fl id data = .error "Session not found" ∧
      (Terminal.resize_session tm os id rows cols).1 =
        .error "Session not found" ∧
      (Vosk.send_vosk_audio vm id samples).1 =
        .error ("Vosk session " ++ id ++ " not found") ∧
      (Vosk.close_session vm id).2 = .error ("Session " ++ id ++ " not found") ∧
      (Terminal.close_session tm id).2 = .ok () := by
  intro tm vm id data samples wr fl os rows cols htm hvm h1 h2 h3 h4
  refine ⟨?_, ?_, ?_, ?_, rfl⟩
  · simp only [Terminal.write_to_session, htm]
  · simp only [Terminal.resize_session]
    rw [if_neg (by
        simp only [Bool.or_eq_true, decide_eq_true_eq, not_or]
        omega),
      if_neg (by
        simp only [Bool.or_eq_true, decide_eq_true_eq, not_or]
        omega),
      htm]
  · simp only [Vosk.send_vosk_audio, hvm]
  · simp only [Vosk.close_session, hvm]

/-- C5 witness: the amended theorem applied to empty registries and the ID
`"x"` with in-bounds dimensions 24x80. -/
theorem C5_amended_unknown_id_witness :
    Terminal.write_to_session { sessions := [], pty_sessions := [] }
        (.ok ()) (.ok ()) "x" "hi" = .error "Session not found" ∧
    (Terminal.resize_session { sessions := [], pty_sessions := [] }
        (.ok ()) "x" 24 80).1 = .error "Session not found" ∧
    (Vosk.send_vosk_audio ([] : Vosk.VoskManager) "x" [0]).1 =
      .error ("Vosk session " ++ "x" ++ " not found") ∧
    (Vosk.close_session ([] : Vosk.VoskManager) "x").2 =
      .error ("Session " ++ "x" ++ " not found") ∧
    (Terminal.close_session { sessions := [], pty_sessions := [] } "x").2 =
      .ok () :=
  C5_amended_unknown_id { sessions := [], pty_sessions := [] } []
    "x" "hi" [0] (.ok ()) (.ok ()) (.ok ()) 24 80 rfl rfl
    (by decide) (by decide) (by decide) (by decide)

/-- C10: `VoskManager::close_session` removes the registry entry before
finalizing, so after the call the ID resolves to nothing — whatever
`finalize` returned — and when the entry existed the result is exactly its
finalization; the entry is never restored on error. -/
theorem C10_close_removes_entry :
    ∀ (mgr : Vosk.VoskManager) (id : String),
      lookup id (Vosk.close_session mgr id).1 = none ∧
      ∀ entry, lookup id mgr = some entry →
        (Vosk.close_session mgr id).1 = removeKey id mgr ∧
        (Vosk.close_session mgr id).2 =
          (Vosk.finalize entry.sock entry.stream).1 := by
  intro mgr id
  constructor
  · cases hm : lookup id mgr with
    | none => simp only [Vosk.close_session, hm]
    | some entry =>
      simp only [Vosk.close_session, hm]
      exact lookup_removeKey id mgr
  · intro entry hm
    simp only [Vosk.close_session, hm]
    exact ⟨trivial, trivial⟩

/-- C10 witness: a registry with one entry whose EOF send fails; the call
returns the send error yet the entry is gone. -/
theorem C10_close_removes_entry_witness :
    lookup "a" (Vosk.close_session
        [("a", { session := Vosk.VoskSession.new 16000,
                 sock := { script := [.err "x"], sent := [] },
                 stream := [] })] "a").1 = none ∧
    (Vosk.close_session
        [("a", { session := Vosk.VoskSession.new 16000,
                 sock := { script := [.err "x"], sent := [] },
                 stream := [] })] "a").2 = .error ("Failed to send EOF: " ++ "x") :=
  ⟨(C10_close_removes_entry
      [("a", { session := Vosk.VoskSession.new 16000,
               sock := { script := [.err "x"], sent := [] },
               stream := [] })] "a").1,
   by
    rw [((C10_close_removes_entry
        [("a", { session := Vosk.VoskSession.new 16000,
                 sock := { script := [.err "x"], sent := [] },
                 stream := [] })] "a").2 _ rfl).2]
    rfl⟩

theorem Sock.send_ok_sent (k : Vosk.Sock) (f : Vosk.Frame)
    (h : (k.send f).1 = .ok ()) : (k.send f).2.sent = k.sent ++ [f] := by
  rcases k with ⟨script, sent⟩
  cases script with
  | nil => rfl
  | cons o rest =>
    cases o with
    | ok => rfl
    | err e => simp [Vosk.Sock.send] at h

theorem finalizeLoop_partials_final (t : String) (rest : List Vosk.NextItem) :
    ∀ ps : List Vosk.NextItem, (∀ x ∈ ps, ∃ s, x = Vosk.partialItem s) →
      Vosk.finalizeLoop (ps ++ Vosk.finalItem t :: rest) = .ok t
  | [], _ => rfl
  | x :: ps, h => by
    obtain ⟨s, rfl⟩ := h x (by simp)
    have := finalizeLoop_partials_final t rest ps fun y hy => h y (by simp [hy])
    simpa [Vosk.partialItem, Vosk.finalizeLoop, Vosk.parseVoskResponse,
      lookup, asStr] using this

theorem finalizeLoop_partials_end :
    ∀ ps : List Vosk.NextItem, (∀ x ∈ ps, ∃ s, x = Vosk.partialItem s) →
      Vosk.finalizeLoop ps = .ok ""
  | [], _ => rfl
  | x :: ps, h => by
    obtain ⟨s, rfl⟩ := h x (by simp)
    have := finalizeLoop_partials_end ps fun y hy => h y (by simp [hy])
    simpa [Vosk.partialItem, Vosk.finalizeLoop, Vosk.parseVoskResponse,
      lookup, asStr] using this

theorem finalizeLoop_partials_close (rest : List Vosk.NextItem) :
    ∀ ps : List Vosk.NextItem, (∀ x ∈ ps, ∃ s, x = Vosk.partialItem s) →
      Vosk.finalizeLoop (ps ++ .closeFrame :: rest) = .ok ""
  | [], _ => rfl
  | x :: ps, h => by
    obtain ⟨s, rfl⟩ := h x (by simp)
    have := finalizeLoop_partials_close rest ps fun y hy => h y (by simp [hy])
    simpa [Vosk.partialItem, Vosk.finalizeLoop, Vosk.parseVoskResponse,
      lookup, asStr] using this

/-- C8: for a socket session present in the registry, `close_session(id)`
removes it and finalizes it: the `eof` frame is appended to the transmitted
frames (when the send succeeds); the first final transcript is returned,
with any partial results before it skipped; and when the connection closes
(or the stream ends) before a final result, the empty string is returned. -/
theorem C8_close_returns_final :
    ∀ (mgr : Vosk.VoskManager) (id : String) (entry : Vosk.VoskEntry),
      lookup id mgr = some entry →
      (Vosk.close_session mgr id).1 = removeKey id mgr ∧
      ((entry.sock.send .eof).1 = .ok () →
        (entry.sock.send .eof).2.sent = entry.sock.sent ++ [.eof] ∧
        ∀ ps : List Vosk.NextItem, (∀ x ∈ ps, ∃ s, x = Vosk.partialItem s) →
          (∀ t rest, entry.stream = ps ++ Vosk.finalItem t :: rest →
            (Vosk.close_session mgr id).2 = .ok t) ∧
          (entry.stream = ps → (Vosk.close_session mgr id).2 = .ok "") ∧
          (∀ rest, entry.stream = ps ++ .closeFrame :: rest →
            (Vosk.close_session mgr id).2 = .ok "")) := by
  intro mgr id entry hm
  have hres : (Vosk.close_session mgr id).2 =
      (Vosk.finalize entry.sock entry.stream).1 := by
    simp only [Vosk.close_session, hm]
  refine ⟨by simp only [Vosk.close_session, hm], ?_⟩
  intro hsend
  have hfin : (Vosk.finalize entry.sock entry.stream).1 =
      Vosk.finalizeLoop entry.stream := by
    simp only [Vosk.finalize]
    rcases hk : entry.sock.send .eof with ⟨r, k'⟩
    cases r with
    | ok u => rfl
    | error e => rw [hk] at hsend; simp at hsend
  refine ⟨Sock.send_ok_sent entry.sock .eof hsend, ?_⟩
  intro ps hps
  refine ⟨?_, ?_, ?_⟩
  · intro t rest hstream
    rw [hres, hfin, hstream]
    exact finalizeLoop_partials_final t rest ps hps
  · intro hstream
    rw [hres, hfin, hstream]
    exact finalizeLoop_partials_end ps hps
  · intro rest hstream
    rw [hres, hfin, hstream]
    exact finalizeLoop_partials_close rest ps hps

/-- C8 witness: one registered session, all sends succeeding, remote script =
one partial then a final `"hello"`; closing returns `"hello"` and the eof
frame was transmitted. -/
theorem C8_close_returns_final_witness :
    ((Vosk.Sock.mk [] []).send .eof).2.sent = [] ++ [Vosk.Frame.eof] ∧
    (Vosk.close_session
        [("a", { session := Vosk.VoskSession.new 16000,
                 sock := { script := [], sent := [] },
                 stream := [Vosk.partialItem "he", Vosk.finalItem "hello"] })]
        "a").2 = .ok "hello" := by
  have h := C8_close_returns_final
      [("a", { session := Vosk.VoskSession.new 16000,
               sock := { script := [], sent := [] },
               stream := [Vosk.partialItem "he", Vosk.finalItem "hello"] })]
      "a"
      { session := Vosk.VoskSession.new 16000,
        sock := { script := [], sent := [] },
        stream := [Vosk.partialItem "he", Vosk.finalItem "hello"] }
      rfl
  have h2 := h.2 rfl
  refine ⟨h2.1, ?_⟩
  have h3 := (h2.2 [Vosk.partialItem "he"] ?_).1 "hello" [] rfl
  · exact h3
  · intro x hx
    simp only [List.mem_singleton] at hx
    exact ⟨"he", hx⟩

theorem send_audio_conf_inv (r : Nat) (s : Vosk.VoskSession) (k : Vosk.Sock)
    (xs : List Int) (h : ConfInv r s k) :
    ConfInv r (Vosk.send_audio s k xs).2.1 (Vosk.send_audio s k xs).2.2 := by
  obtain ⟨hr, hcase⟩ := h
  rcases k with ⟨script, sent⟩
  rcases s with ⟨configured, rate⟩
  simp only at hr
  subst hr
  rcases hcase with ⟨hc, hsent⟩ | ⟨hc, l, hsent, haudio⟩
  · simp only at hc hsent
    subst hc; subst hsent
    cases script with
    | nil =>
      refine ⟨rfl, Or.inr ⟨rfl, [Vosk.Frame.audio (Vosk.pcmBytes xs)], rfl, ?_⟩⟩
      intro f hf
      simp only [List.mem_singleton] at hf
      subst hf; rfl
    | cons o rest =>
      cases o with
      | err e => exact ⟨rfl, Or.inl ⟨rfl, rfl⟩⟩
      | ok =>
        cases rest with
        | nil =>
          refine ⟨rfl, Or.inr ⟨rfl, [Vosk.Frame.audio (Vosk.pcmBytes xs)], rfl, ?_⟩⟩
          intro f hf
          simp only [List.mem_singleton] at hf
          subst hf; rfl
        | cons o2 rest2 =>
          cases o2 with
          | err e => exact ⟨rfl, Or.inr ⟨rfl, [], rfl, by simp⟩⟩
          | ok =>
            refine ⟨rfl, Or.inr ⟨rfl, [Vosk.Frame.audio (Vosk.pcmBytes xs)], rfl, ?_⟩⟩
            intro f hf
            simp only [List.mem_singleton] at hf
            subst hf; rfl
  · simp only at hc hsent
    subst hc; subst hsent
    cases script with
    | nil =>
      refine ⟨rfl, Or.inr ⟨rfl, l ++ [Vosk.Frame.audio (Vosk.pcmBytes xs)], rfl, ?_⟩⟩
      intro f hf
      rcases List.mem_append.1 hf with hf | hf
      · exact haudio f hf
      · simp only [List.mem_singleton] at hf
        subst hf; rfl
    | cons o rest =>
      cases o with
      | err e => exact ⟨rfl, Or.inr ⟨rfl, l, rfl, haudio⟩⟩
      | ok =>
        refine ⟨rfl, Or.inr ⟨rfl, l ++ [Vosk.Frame.audio (Vosk.pcmBytes xs)], rfl, ?_⟩⟩
        intro f hf
        rcases List.mem_append.1 hf with hf | hf
        · exact haudio f hf
        · simp only [List.mem_singleton] at hf
          subst hf; rfl

theorem runSendAudio_conf_inv (r : Nat) :
    ∀ (calls : List (List Int)) (s : Vosk.VoskSession) (k : Vosk.Sock),
      ConfInv r s k →
      ConfInv r (Vosk.runSendAudio s k calls).1 (Vosk.runSendAudio s k calls).2
  | [], _, _, h => h
  | xs :: calls, s, k, h =>
    runSendAudio_conf_inv r calls _ _ (send_audio_conf_inv r s k xs h)

theorem conf_inv_extract (r : Nat) (s : Vosk.VoskSession) (k : Vosk.Sock)
    (h : ConfInv r s k) :
    k.sent.countP Vosk.Frame.isConfig ≤ 1 ∧
    ∀ i, ∀ hi : i < k.sent.length, (k.sent.get ⟨i, hi⟩).isAudio = true →
      ∃ j, ∃ hj : j < k.sent.length, j < i ∧
        k.sent.get ⟨j, hj⟩ = Vosk.Frame.config r := by
  obtain ⟨-, hcase⟩ := h
  rcases hcase with ⟨-, hsent⟩ | ⟨-, l, hsent, haudio⟩
  · rw [hsent]
    exact ⟨by simp, fun i hi => absurd hi (by simp)⟩
  · rw [hsent]
    constructor
    · rw [List.countP_cons]
      have hl : l.countP Vosk.Frame.isConfig = 0 := by
        rw [List.countP_eq_zero]
        intro f hf
        have := haudio f hf
        cases f <;> simp_all [Vosk.Frame.isAudio, Vosk.Frame.isConfig]
      simp [hl, Vosk.Frame.isConfig]
    · intro i hi hia
      cases i with
      | zero => simp [Vosk.Frame.isAudio] at hia
      | succ n =>
        exact ⟨0, by simp, Nat.succ_pos n, rfl⟩

/-- C7: over any sequence of `send_audio` calls on a fresh session, the
configuration frame is transmitted at most once over the session's lifetime
(idempotence flag, set only on a successful send), and every transmitted
audio frame is preceded by the successfully transmitted configuration frame
carrying the session's sample rate. -/
theorem C7_config_once :
    ∀ (r : Nat) (script : List Vosk.SendOutcome) (calls : List (List Int))
      (s' : Vosk.VoskSession) (k' : Vosk.Sock),
      Vosk.runSendAudio (Vosk.VoskSession.new r) { script := script, sent := [] }
        calls = (s', k') →
      k'.sent.countP Vosk.Frame.isConfig ≤ 1 ∧
      ∀ i, ∀ hi : i < k'.sent.length, (k'.sent.get ⟨i, hi⟩).isAudio = true →
        ∃ j, ∃ hj : j < k'.sent.length, j < i ∧
          k'.sent.get ⟨j, hj⟩ = Vosk.Frame.config r := by
  intro r script calls s' k' hrun
  have hinv := runSendAudio_conf_inv r calls (Vosk.VoskSession.new r)
    { script := script, sent := [] } ⟨rfl, Or.inl ⟨rfl, rfl⟩⟩
  rw [hrun] at hinv
  exact conf_inv_extract r s' k' hinv

/-- C7 witness: two `send_audio` calls on a fresh session with an
all-accepting socket; the transmitted frames are the config frame followed
by two audio frames, the config frame counted once and preceding the audio
frame at index 1. -/
theorem C7_config_once_witness :
    (Vosk.runSendAudio (Vosk.VoskSession.new 16000) { script := [], sent := [] }
        [[1, -2], [3]]).2.sent.countP Vosk.Frame.isConfig ≤ 1 ∧
    ∃ j, ∃ hj : j < (Vosk.runSendAudio (Vosk.VoskSession.new 16000)
        { script := [], sent := [] } [[1, -2], [3]]).2.sent.length, j < 1 ∧
      (Vosk.runSendAudio (Vosk.VoskSession.new 16000)
        { script := [], sent := [] } [[1, -2], [3]]).2.sent.get ⟨j, hj⟩ =
        Vosk.Frame.config 16000 := by
  have h := C7_config_once 16000 [] [[1, -2], [3]]
    (Vosk.runSendAudio (Vosk.VoskSession.new 16000)
      { script := [], sent := [] } [[1, -2], [3]]).1
    (Vosk.runSendAudio (Vosk.VoskSession.new 16000)
      { script := [], sent := [] } [[1, -2], [3]]).2 rfl
  exact ⟨h.1, h.2 1 (by decide) (by decide)⟩

/-- C9: when `create_session` fails after inserting the session record — the
pty allocation, the command spawn, the reader clone or the writer take
fails — it returns `Err`, yet the record inserted at the start of the call
remains registered with status `Starting`, no pty handle exists for the
orphaned ID, and no reader pump thread was spawned. -/
theorem C9_create_not_atomic :
    ∀ (m : Terminal.TerminalManager) (env : Terminal.CreateEnv)
      (id rp p : String) (t : Nat),
      ¬(env.openpty = .ok () ∧ env.spawn_command = .ok () ∧
        env.try_clone_reader = .ok () ∧ env.take_writer = .ok ()) →
      lookup id m.pty_sessions = none →
      (∃ e, (Terminal.create_session m env id rp p t).2.1 = .error e) ∧
      lookup id (Terminal.create_session m env id rp p t).1.sessions =
        some { id := id, repo_path := rp, prompt := p,
               status := .Starting, created_at := t } ∧
      lookup id (Terminal.create_session m env id rp p t).1.pty_sessions = none ∧
      (Terminal.create_session m env id rp p t).2.2 = false := by
  intro m env id rp p t hfail hfresh
  rcases env with ⟨o, sc, cr, tw⟩
  cases o with
  | error e =>
    exact ⟨⟨_, rfl⟩, lookup_insertKey id _ m.sessions, hfresh, rfl⟩
  | ok u =>
    cases u
    cases sc with
    | error e =>
      exact ⟨⟨_, rfl⟩, lookup_insertKey id _ m.sessions, hfresh, rfl⟩
    | ok u =>
      cases u
      cases cr with
      | error e =>
        exact ⟨⟨_, rfl⟩, lookup_insertKey id _ m.sessions, hfresh, rfl⟩
      | ok u =>
        cases u
        cases tw with
        | error e =>
          exact ⟨⟨_, rfl⟩, lookup_insertKey id _ m.sessions, hfresh, rfl⟩
        | ok u =>
          cases u
          exact absurd ⟨rfl, rfl, rfl, rfl⟩ hfail

/-- C9 witness: the theorem applied to an empty manager and an environment
whose pty allocation fails. -/
theorem C9_create_not_atomic_witness :
    (∃ e, (Terminal.create_session { sessions := [], pty_sessions := [] }
        { openpty := .error "io", spawn_command := .ok (),
          try_clone_reader := .ok (), take_writer := .ok () }
        "a" "/repo" "hi" 7).2.1 = .error e) ∧
    lookup "a" (Terminal.create_session { sessions := [], pty_sessions := [] }
        { openpty := .error "io", spawn_command := .ok (),
          try_clone_reader := .ok (), take_writer := .ok () }
        "a" "/repo" "hi" 7).1.sessions =
      some { id := "a", repo_path := "/repo", prompt := "hi",
             status := .Starting, created_at := 7 } ∧
    lookup "a" (Terminal.create_session { sessions := [], pty_sessions := [] }
        { openpty := .error "io", spawn_command := .ok (),
          try_clone_reader := .ok (), take_writer := .ok () }
        "a" "/repo" "hi" 7).1.pty_sessions = none ∧
    (Terminal.create_session { sessions := [], pty_sessions := [] }
        { openpty := .error "io", spawn_command := .ok (),
          try_clone_reader := .ok (), take_writer := .ok () }
        "a" "/repo" "hi" 7).2.2 = false :=
  C9_create_not_atomic { sessions := [], pty_sessions := [] }
    { openpty := .error "io", spawn_command := .ok (),
      try_clone_reader := .ok (), take_writer := .ok () }
    "a" "/repo" "hi" 7 (by intro h; exact absurd h.1 (by simp)) rfl

theorem spawnMsg_ne_notFoundMsg (e m : String) :
    ("Failed to spawn sidecar: " ++ e) ≠ ("Sidecar not found. Tried:\n" ++ m) := by
  intro h
  have h2 := congrArg String.data h
  simp only [String.data_append] at h2
  simp at h2

/-- C6: `SidecarManager::start` spawns the child at most once: when already
started it returns `Ok` without attempting a spawn; when no candidate path
exists it returns the error that lists every path candidate tried (and no
spawn is attempted); and when the OS spawn fails it returns a spawn error
distinct from any not-found error. -/
theorem C6_start_spec :
    (∀ st env, st.started = true → Sidecar.start st env = (st, .ok (), false)) ∧
    (∀ (st : Sidecar.SidecarState) (env : Sidecar.StartEnv)
       (exePath exe_dir cwd rd : String),
      st.started = false →
      env.current_exe = .ok exePath →
      Sidecar.parentDir exePath = some exe_dir →
      env.current_dir = .ok cwd →
      env.resource_dir = .ok rd →
      (∀ q ∈ Sidecar.candidates rd cwd exe_dir, env.path_exists q = false) →
      Sidecar.start st env =
        (st, .error (Sidecar.notFoundMsg (Sidecar.candidates rd cwd exe_dir)),
         false)) ∧
    (∀ (st : Sidecar.SidecarState) (env : Sidecar.StartEnv)
       (exePath exe_dir cwd rd q e : String),
      st.started = false →
      env.current_exe = .ok exePath →
      Sidecar.parentDir exePath = some exe_dir →
      env.current_dir = .ok cwd →
      env.resource_dir = .ok rd →
      (Sidecar.candidates rd cwd exe_dir).find? env.path_exists = some q →
      env.spawn = .error e →
      Sidecar.start st env = (st, .error ("Failed to spawn sidecar: " ++ e), true) ∧
      ∀ ps, ("Failed to spawn sidecar: " ++ e) ≠ Sidecar.notFoundMsg ps) := by
  refine ⟨?_, ?_, ?_⟩
  · intro st env hst
    simp only [Sidecar.start, hst, if_true]
  · intro st env exePath exe_dir cwd rd hst hexe hpar hcwd hrd hnone
    have hfind : (Sidecar.candidates rd cwd exe_dir).find? env.path_exists = none := by
      rw [List.find?_eq_none]
      intro q hq
      simp [hnone q hq]
    simp only [Sidecar.start, hst, if_false, hexe, hpar, hcwd, hrd, hfind]
    rfl
  · intro st env exePath exe_dir cwd rd q e hst hexe hpar hcwd hrd hfind hspawn
    refine ⟨?_, fun ps => spawnMsg_ne_notFoundMsg e _⟩
    simp only [Sidecar.start, hst, if_false, hexe, hpar, hcwd, hrd, hfind, hspawn]
    rfl

/-- C6 witness: the theorem's three branches applied to concrete states and
environments — an already-started manager, an environment where no candidate
exists, and one where the first candidate exists but the spawn fails. -/
theorem C6_start_spec_witness :
    Sidecar.start { hasProcess := true, hasStdin := true, started := true }
        { current_exe := .ok "/app/bin/x", current_dir := .ok "/app",
          resource_dir := .ok "/app/res", path_exists := fun _ => false,
          spawn := .ok (), child_stdout := true, child_stdin := true } =
      ({ hasProcess := true, hasStdin := true, started := true }, .ok (), false) ∧
    Sidecar.start Sidecar.SidecarState.new
        { current_exe := .ok "/app/bin/x", current_dir := .ok "/app",
          resource_dir := .ok "/app/res", path_exists := fun _ => false,
          spawn := .ok (), child_stdout := true, child_stdin := true } =
      (Sidecar.SidecarState.new,
       .error (Sidecar.notFoundMsg (Sidecar.candidates "/app/res" "/app" "/app/bin")),
       false) ∧
    Sidecar.start Sidecar.SidecarState.new
        { current_exe := .ok "/app/bin/x", current_dir := .ok "/app",
          resource_dir := .ok "/app/res", path_exists := fun _ => true,
          spawn := .error "ENOENT", child_stdout := true, child_stdin := true } =
      (Sidecar.SidecarState.new, .error ("Failed to spawn sidecar: " ++ "ENOENT"),
       true) :=
  ⟨C6_start_spec.1 { hasProcess := true, hasStdin := true, started := true }
      { current_exe := .ok "/app/bin/x", current_dir := .ok "/app",
        resource_dir := .ok "/app/res", path_exists := fun _ => false,
        spawn := .ok (), child_stdout := true, child_stdin := true } rfl,
   C6_start_spec.2.1 Sidecar.SidecarState.new
      { current_exe := .ok "/app/bin/x", current_dir := .ok "/app",
        resource_dir := .ok "/app/res", path_exists := fun _ => false,
        spawn := .ok (), child_stdout := true, child_stdin := true }
      "/app/bin/x" "/app/bin" "/app" "/app/res" rfl rfl rfl rfl rfl
      (fun _ _ => rfl),
   (C6_start_spec.2.2 Sidecar.SidecarState.new
      { current_exe := .ok "/app/bin/x", current_dir := .ok "/app",
        resource_dir := .ok "/app/res", path_exists := fun _ => true,
        spawn := .error "ENOENT", child_stdout := true, child_stdin := true }
      "/app/bin/x" "/app/bin" "/app" "/app/res"
      (Sidecar.pathJoin "/app/res" "dist/index.js") "ENOENT"
      rfl rfl rfl rfl rfl rfl rfl).1⟩

/-- C3: as stated the claim is false on the code: the multiplexer also
accepts the `done` tag — the line with type `done` parses to
the `Done` event — and `done` is not among the claim's fourteen event kinds
(spelled here as wire tags; the spec's hyphenated names such as `text-chunk`
are the snake_case wire tags `text`, …). -/
theorem C3_counterexample :
    Sidecar.parseInbound Sidecar.doneLine = some (.Done "s1") ∧
    Sidecar.tagOf (.Done "s1") ∉ Sidecar.claimedInboundTags := by
  exact ⟨rfl, by decide⟩

/-- C3 (amended): every inbound JSON value the multiplexer accepts parses to
exactly one event of the closed tag set `ready, created, text, tool_start,
tool_result, done, usage, progressive_usage, model_updated,
thinking_updated, closed, error, debug, subagent_start, subagent_stop`
(the claim's fourteen kinds plus `done`); no value with a tag outside this
set is accepted; and an event carries no session ID exactly when it is the
process-global `Ready`. -/
theorem C3_amended_closed_tags :
    (∀ j m, Sidecar.parseInbound j = some m →
      Sidecar.tagOf m ∈ Sidecar.inboundTags) ∧
    (∀ m, Sidecar.sessionId m = none ↔ m = .Ready) := by
  constructor
  · intro j m h
    cases j with
    | jnull => simp [Sidecar.parseInbound] at h
    | jbool b => simp [Sidecar.parseInbound] at h
    | jint n => simp [Sidecar.parseInbound] at h
    | jfloat q => simp [Sidecar.parseInbound] at h
    | jstr s => simp [Sidecar.parseInbound] at h
    | jarr xs => simp [Sidecar.parseInbound] at h
    | jobj fields =>
      rw [show Sidecar.parseInbound (.jobj fields) = Sidecar.parseTagged fields
        from rfl] at h
      unfold Sidecar.parseTagged at h
      split at h
      · exact absurd h (by simp)
      · split at h
        · injection h with h
          subst h
          show ("ready" : String) ∈ Sidecar.inboundTags
          decide
        · simp only [bind, Option.bind_eq_some, Option.pure_def,
            Option.some.injEq] at h
          obtain ⟨i, -, rfl⟩ := h
          show ("created" : String) ∈ Sidecar.inboundTags
          decide
        · simp only [bind, Option.bind_eq_some, Option.pure_def,
            Option.some.injEq] at h
          obtain ⟨i, -, c, -, rfl⟩ := h
          show ("text" : String) ∈ Sidecar.inboundTags
          decide
        · simp only [bind, Option.bind_eq_some, Option.pure_def,
            Option.some.injEq] at h
          obtain ⟨i, -, tl, -, inp, -, rfl⟩ := h
          show ("tool_start" : String) ∈ Sidecar.inboundTags
          decide
        · simp only [bind, Option.bind_eq_some, Option.pure_def,
            Option.some.injEq] at h
          obtain ⟨i, -, tl, -, o, -, rfl⟩ := h
          show ("tool_result" : String) ∈ Sidecar.inboundTags
          decide
        · simp only [bind, Option.bind_eq_some, Option.pure_def,
            Option.some.injEq] at h
          obtain ⟨i, -, rfl⟩ := h
          show ("done" : String) ∈ Sidecar.inboundTags
          decide
        · simp only [bind, Option.bind_eq_some, Option.pure_def,
            Option.some.injEq] at h
          obtain ⟨i, -, a, -, b, -, c, -, d, -, e, -, f, -, g, -, hh, -, k, -, rfl⟩ := h
          show ("usage" : String) ∈ Sidecar.inboundTags
          decide
        · simp only [bind, Option.bind_eq_some, Option.pure_def,
            Option.some.injEq] at h
          obtain ⟨i, -, a, -, b, -, c, -, d, -, rfl⟩ := h
          show ("progressive_usage" : String) ∈ Sidecar.inboundTags
          decide
        · simp only [bind, Option.bind_eq_some, Option.pure_def,
            Option.some.injEq] at h
          obtain ⟨i, -, mo, -, rfl⟩ := h
          show ("model_updated" : String) ∈ Sidecar.inboundTags
          decide
        · simp only [bind, Option.bind_eq_some, Option.pure_def,
            Option.some.injEq] at h
          obtain ⟨i, -, tk, -, rfl⟩ := h
          show ("thinking_updated" : String) ∈ Sidecar.inboundTags
          decide
        · simp only [bind, Option.bind_eq_some, Option.pure_def,
            Option.some.injEq] at h
          obtain ⟨i, -, rfl⟩ := h
          show ("closed" : String) ∈ Sidecar.inboundTags
          decide
        · simp only [bind, Option.bind_eq_some, Option.pure_def,
            Option.some.injEq] at h
          obtain ⟨i, -, msg, -, rfl⟩ := h
          show ("error" : String) ∈ Sidecar.inboundTags
          decide
        · simp only [bind, Option.bind_eq_some, Option.pure_def,
            Option.some.injEq] at h
          obtain ⟨i, -, msg, -, rfl⟩ := h
          show ("debug" : String) ∈ Sidecar.inboundTags
          decide
        · simp only [bind, Option.bind_eq_some, Option.pure_def,
            Option.some.injEq] at h
          obtain ⟨i, -, a, -, b, -, rfl⟩ := h
          show ("subagent_start" : String) ∈ Sidecar.inboundTags
          decide
        · simp only [bind, Option.bind_eq_some, Option.pure_def,
            Option.some.injEq] at h
          obtain ⟨i, -, a, -, b, -, rfl⟩ := h
          show ("subagent_stop" : String) ∈ Sidecar.inboundTags
          decide
        · exact absurd h (by simp)
  · intro m
    cases m <;> simp [Sidecar.sessionId]

/-- C3 witness: the amended theorem applied to the concrete `done` line and
to the `Ready` event. -/
theorem C3_amended_closed_tags_witness :
    Sidecar.tagOf (.Done "s1") ∈ Sidecar.inboundTags ∧
    (Sidecar.sessionId .Ready = none ↔ Sidecar.InboundMessage.Ready = .Ready) :=
  ⟨C3_amended_closed_tags.1 Sidecar.doneLine (.Done "s1") rfl,
   C3_amended_closed_tags.2 .Ready⟩

end ClaudeWhisperer
